import Mathlib

/-!
Verification development for the `elevenlabs-mcp-backend` order-status server.

The embedding models the protocol dispatcher (`src/mcp.ts`), the lookup
resolver with its retry loop, the field normalizer (`src/supabase.ts`,
`lookupOrder`), and the response formatter (`formatOrderForAgent`).

JavaScript runtime primitives used by the source (string search, `parseInt`,
`Date` parsing and ISO rendering, truthiness, `String(...)` coercion) are
modelled explicitly below.  The `Date` model is restricted to ISO-8601 inputs
(the only date shapes produced by the backing store) and to integer epoch
milliseconds; `Date` object inputs cannot occur because the store delivers
JSON-decoded rows.
-/

/-- Does the second list appear as a leading segment of the first argument list?
(`needle` first, `hay` second). -/
def listStartsWith : List Char → List Char → Bool
  | [], _ => true
  | _ :: _, [] => false
  | a :: as, b :: bs => a == b && listStartsWith as bs

/-- Does `needle` occur contiguously inside `hay` (both as char lists)? -/
def strContainsAux (needle : List Char) : List Char → Bool
  | [] => listStartsWith needle []
  | c :: cs => listStartsWith needle (c :: cs) || strContainsAux needle cs

/-- Model of JavaScript `hay.includes(needle)` for strings. -/
def strContains (hay needle : String) : Bool :=
  strContainsAux needle.data hay.data

/-- Model of JavaScript `s.toUpperCase()` (ASCII range, which covers all
status strings handled by the code). -/
def jsToUpper (s : String) : String :=
  String.mk (s.data.map Char.toUpper)

/-- Left-pad the decimal rendering of `n` with zeros to width `w`. -/
def padNat (w : Nat) (n : Nat) : String :=
  let s := toString n
  String.mk (List.replicate (w - s.length) '0') ++ s

/-- Value of a maximal leading run of decimal digits (accumulator form). -/
def digitsVal : List Char → Nat → Nat
  | [], acc => acc
  | c :: cs, acc => if c.isDigit then digitsVal cs (10 * acc + (c.toNat - 48)) else acc

/-- Digits of a fixed-width field interpreted in base 10. -/
def digitsToNat (cs : List Char) : Nat :=
  cs.foldl (fun a c => 10 * a + (c.toNat - 48)) 0

/-- Model of JavaScript `parseInt(s, 10)`: skip leading whitespace, optional
sign, then a maximal run of decimal digits; `none` models `NaN` (no digit). -/
def jsParseInt (s : String) : Option Int :=
  match s.data.dropWhile Char.isWhitespace with
  | '-' :: c :: cs =>
      if c.isDigit then some (-(digitsVal (c :: cs) 0 : Int)) else none
  | '+' :: c :: cs =>
      if c.isDigit then some ((digitsVal (c :: cs) 0 : Int)) else none
  | c :: cs =>
      if c.isDigit then some ((digitsVal (c :: cs) 0 : Int)) else none
  | [] => none

/-- Broken-down UTC datetime, the model of a valid JavaScript `Date`. -/
structure JsDate where
  year : Int
  month : Nat
  day : Nat
  hour : Nat
  minute : Nat
  second : Nat
  ms : Nat
deriving DecidableEq, Repr

/-- Gregorian leap-year test. -/
def isLeap (y : Int) : Bool :=
  (y % 4 == 0 && y % 100 != 0) || y % 400 == 0

/-- Number of days in a month of a given year. -/
def daysInMonth (y : Int) (m : Nat) : Nat :=
  if m == 2 then (if isLeap y then 29 else 28)
  else if m == 4 || m == 6 || m == 9 || m == 11 then 30
  else 31

/-- Build a `JsDate` after range validation (invalid components model the
JavaScript `Invalid Date`). -/
def mkJsDate (y : Int) (mo d hh mi ss ms : Nat) : Option JsDate :=
  if 1 ≤ mo && mo ≤ 12 && 1 ≤ d && d ≤ daysInMonth y mo
      && hh ≤ 23 && mi ≤ 59 && ss ≤ 59 && ms ≤ 999 then
    some ⟨y, mo, d, hh, mi, ss, ms⟩
  else none

/-- Model of `new Date(s)` for string input, restricted to the ISO-8601 shapes
`YYYY-MM-DD` and `YYYY-MM-DDTHH:MM:SS.mmmZ`; `none` models `Invalid Date`. -/
def parseJsDate (s : String) : Option JsDate :=
  match s.data with
  | [y1, y2, y3, y4, s1, m1, m2, s2, d1, d2] =>
      if s1 == '-' && s2 == '-' && [y1, y2, y3, y4, m1, m2, d1, d2].all Char.isDigit then
        mkJsDate (digitsToNat [y1, y2, y3, y4]) (digitsToNat [m1, m2]) (digitsToNat [d1, d2]) 0 0 0 0
      else none
  | [y1, y2, y3, y4, s1, m1, m2, s2, d1, d2, t, h1, h2, c1, i1, i2, c2, e1, e2, dot, x1, x2, x3, z] =>
      if s1 == '-' && s2 == '-' && t == 'T' && c1 == ':' && c2 == ':' && dot == '.' && z == 'Z'
          && [y1, y2, y3, y4, m1, m2, d1, d2, h1, h2, i1, i2, e1, e2, x1, x2, x3].all Char.isDigit then
        mkJsDate (digitsToNat [y1, y2, y3, y4]) (digitsToNat [m1, m2]) (digitsToNat [d1, d2])
          (digitsToNat [h1, h2]) (digitsToNat [i1, i2]) (digitsToNat [e1, e2]) (digitsToNat [x1, x2, x3])
      else none
  | _ => none

/-- Civil date from a count of days since 1970-01-01 (standard era-based
conversion used to model the `Date` epoch arithmetic). -/
def civilFromDays (z0 : Int) : Int × Nat × Nat :=
  let z := z0 + 719468
  let era := z.ediv 146097
  let doe := (z - era * 146097).toNat
  let yoe := (doe - doe / 1460 + doe / 36524 - doe / 146096) / 365
  let doy := doe - (365 * yoe + yoe / 4 - yoe / 100)
  let mp := (5 * doy + 2) / 153
  let d := doy - (153 * mp + 2) / 5 + 1
  let m := if mp < 10 then mp + 3 else mp - 9
  ((yoe : Int) + era * 400 + (if m ≤ 2 then 1 else 0), m, d)

/-- Model of `new Date(n)` for an integer count of epoch milliseconds;
out-of-range values model `Invalid Date` (whose `toISOString` throws). -/
def msToJsDate (n : Int) : Option JsDate :=
  if n.natAbs > 8640000000000000 then none
  else
    let day := n.ediv 86400000
    let msod := (n.emod 86400000).toNat
    let ymd := civilFromDays day
    some ⟨ymd.1, ymd.2.1, ymd.2.2,
      msod / 3600000, msod / 60000 % 60, msod / 1000 % 60, msod % 1000⟩

/-- Decimal rendering of a year, padded to four digits (negative years keep a
leading minus sign). -/
def padYear (y : Int) : String :=
  if y < 0 then "-" ++ padNat 4 y.natAbs else padNat 4 y.toNat

/-- Model of `date.toISOString()`. -/
def toIsoString (d : JsDate) : String :=
  padYear d.year ++ "-" ++ padNat 2 d.month ++ "-" ++ padNat 2 d.day ++ "T"
    ++ padNat 2 d.hour ++ ":" ++ padNat 2 d.minute ++ ":" ++ padNat 2 d.second
    ++ "." ++ padNat 3 d.ms ++ "Z"

/-- Model of `date.toISOString().split('T')[0]` — the calendar-date part. -/
def isoDatePart (d : JsDate) : String :=
  padYear d.year ++ "-" ++ padNat 2 d.month ++ "-" ++ padNat 2 d.day

/-- Scalar value stored in a raw row (JSON-decoded, so a string, a number, or
a boolean; numbers are modelled as integers — no claim involves fractions). -/
inductive RawVal
  | vStr (s : String)
  | vNum (n : Int)
  | vBool (b : Bool)
deriving DecidableEq, Repr

/-- JavaScript truthiness of a scalar value. -/
def truthy : RawVal → Bool
  | .vStr s => s ≠ ""
  | .vNum n => n ≠ 0
  | .vBool b => b

/-- Truthiness of a possibly-absent value (`undefined`/`null` are falsy). -/
def truthyOpt : Option RawVal → Bool
  | none => false
  | some v => truthy v

/-- Model of `String(v)` on a scalar value. -/
def jsString : RawVal → String
  | .vStr s => s
  | .vNum n => toString n
  | .vBool b => if b then "true" else "false"

/-- Model of the JavaScript `a || b` fallback on possibly-absent values:
yields `a` when `a` is truthy, otherwise `b` (even when `b` is falsy). -/
def jsOr (a b : Option RawVal) : Option RawVal :=
  if truthyOpt a then a else b

/-- JavaScript number that may be `NaN` (result of `Number(v)`). -/
inductive JsNum
  | int (n : Int)
  | nan
deriving DecidableEq, Repr

/-- Model of `Number(v)` (string conversion restricted to whole numbers;
fractional literals are out of scope for every claim). -/
def jsNumberOf : RawVal → JsNum
  | .vNum n => .int n
  | .vBool b => .int (if b then 1 else 0)
  | .vStr s =>
      match s.data.dropWhile Char.isWhitespace with
      | [] => .int 0
      | '-' :: c :: cs =>
          if (c :: cs).all Char.isDigit then .int (-(digitsToNat (c :: cs) : Int)) else .nan
      | cs => if cs.all Char.isDigit then .int ((digitsToNat cs : Int)) else .nan

/-- Raw row returned by the `orders_trendyol` store: every column optional
(`none` models an absent key / SQL NULL seen as `undefined` or `null`). -/
structure RawRecord where
  order_id : Option RawVal := none
  status : Option RawVal := none
  order_status : Option RawVal := none
  customer_name : Option RawVal := none
  customer_phone : Option RawVal := none
  product_id : Option RawVal := none
  product_name : Option RawVal := none
  category : Option RawVal := none
  eta : Option RawVal := none
  estimated_delivery_date : Option RawVal := none
  carrier : Option RawVal := none
  delivery_partner : Option RawVal := none
  delivery_address : Option RawVal := none
  tracking_number : Option RawVal := none
  tracking_id : Option RawVal := none
  tracking : Option RawVal := none
  payment_method : Option RawVal := none
  order_date : Option RawVal := none
  created_at : Option RawVal := none
  last_update : Option RawVal := none
  updated_at : Option RawVal := none
  issue_flag : Option RawVal := none
  issue_type : Option RawVal := none
  return_eligible : Option RawVal := none
  refund_amount : Option RawVal := none
  notes : Option RawVal := none
  order_notes : Option RawVal := none
deriving DecidableEq, Repr

/-- Canonical order shape (`LookupOrderResponse` in `src/types.ts`); `status`
is a string because the unmatched-status escape hatch can leave the
six-value enumeration. -/
structure LookupOrderResponse where
  order_id : String
  status : String
  order_status : Option String
  customer_name : Option String
  customer_phone : Option String
  product_id : Option String
  product_name : Option String
  category : Option String
  eta : Option String
  estimated_delivery_date : Option String
  carrier : Option String
  delivery_partner : Option String
  delivery_address : Option String
  tracking_number : Option String
  payment_method : Option String
  order_date : String
  created_at : String
  last_update : String
  issue_flag : Option String
  issue_type : Option String
  return_eligible : Option Bool
  refund_amount : Option JsNum
  notes : Option String
deriving DecidableEq, Repr

/-- `toStr` helper from `lookupOrder`: `val ? String(val) : null`. -/
def toStr (val : Option RawVal) : Option String :=
  match val with
  | none => none
  | some v => if truthy v then some (jsString v) else none

/-- `toDateStr` helper from `lookupOrder`: tolerant coercion to a calendar
date string, collapsing unparsable values to `none`. -/
def toDateStr (val : Option RawVal) : Option String :=
  match val with
  | none => none
  | some v =>
      if truthy v then
        match v with
        | .vStr s =>
            match parseJsDate s with
            | some d => some (isoDatePart d)
            | none => none
        | .vNum n =>
            match msToJsDate n with
            | some d => some (isoDatePart d)
            | none => none
        | .vBool _ => none
      else none

/-- `toTimestampStr` helper from `lookupOrder`: tolerant coercion to a full
timestamp, defaulting to the current time `now` instead of failing. -/
def toTimestampStr (now : String) (val : Option RawVal) : String :=
  match val with
  | none => now
  | some v =>
      if truthy v then
        match v with
        | .vStr s =>
            match parseJsDate s with
            | some d => toIsoString d
            | none => now
        | .vNum n =>
            match msToJsDate n with
            | some d => toIsoString d
            | none => now
        | .vBool _ => now
      else now

/-- Status mapping block of `lookupOrder` (`src/supabase.ts` lines 223-250):
uppercase then classify by substring against the six keyword families, with
pass-through of an unmatched value and `PROCESSING` as the no-value default. -/
def mapStatus (statusValue : Option RawVal) : String :=
  match statusValue with
  | some v =>
      if truthy v then
        let u := jsToUpper (jsString v)
        if strContains u "SHIPPED" || strContains u "SHIPPING" then "SHIPPED"
        else if strContains u "DELIVERED" || strContains u "DELIVERY" then "DELIVERED"
        else if strContains u "PROCESSING" || strContains u "PROCESS" then "PROCESSING"
        else if strContains u "CANCELED" || strContains u "CANCELLED" then "CANCELED"
        else if strContains u "RETURNED" || strContains u "RETURN" then "RETURNED"
        else if strContains u "HOLD" || strContains u "ON_HOLD" then "ON_HOLD"
        else u
      else "PROCESSING"
  | none => "PROCESSING"

/-- Normalization portion of `lookupOrder` (`src/supabase.ts` lines 219-368):
field precedence via `||` fallbacks, the `order_id` integrity check, and the
coercions into the canonical response.  `now` stands for
`new Date().toISOString()` at the moment of the call. -/
def normalizeRecord (now : String) (r : RawRecord) : Except String LookupOrderResponse :=
  let statusValue := jsOr r.status r.order_status
  let mappedStatus := mapStatus statusValue
  let eta := jsOr r.eta r.estimated_delivery_date
  let carrier := jsOr r.carrier r.delivery_partner
  let tracking_number := jsOr (jsOr r.tracking_number r.tracking_id) r.tracking
  let last_update :=
    jsOr (jsOr (jsOr (jsOr r.last_update r.updated_at) r.order_date) r.created_at)
      (some (.vStr now))
  let issue_flag := jsOr r.issue_flag r.issue_type
  let notes := jsOr r.notes r.order_notes
  match r.order_id with
  | none => .error "Invalid order data: missing order_id"
  | some oid =>
      if truthy oid then
        .ok {
          order_id := jsString oid
          status := mappedStatus
          order_status := toStr r.order_status
          customer_name := toStr r.customer_name
          customer_phone := toStr r.customer_phone
          product_id := toStr r.product_id
          product_name := toStr r.product_name
          category := toStr r.category
          eta := toDateStr eta
          estimated_delivery_date := toDateStr r.estimated_delivery_date
          carrier := toStr carrier
          delivery_partner := toStr r.delivery_partner
          delivery_address := toStr r.delivery_address
          tracking_number := toStr tracking_number
          payment_method := toStr r.payment_method
          order_date := toTimestampStr now r.order_date
          created_at := toTimestampStr now r.created_at
          last_update := toTimestampStr now last_update
          issue_flag := toStr issue_flag
          issue_type := toStr r.issue_type
          return_eligible := r.return_eligible.map truthy
          refund_amount := r.refund_amount.map jsNumberOf
          notes := toStr notes
        }
      else .error "Invalid order data: missing order_id"

/-- One outcome of a single `.single()` query against the store: a row (or a
null row), a store-reported error object (`result.error` with `code` and
`message`), or a thrown exception (with `name` and `message`). -/
inductive AttemptResult
  | ok (data : Option RawRecord)
  | qerr (code message : String)
  | exn (name message : String)

/-- Query value sent to `.eq("order_id", ...)`. -/
inductive QueryVal
  | str (s : String)
  | num (n : Int)
deriving DecidableEq, Repr

/-- Transient-network classification applied to a store-reported error
message (`src/supabase.ts` lines 132-137). -/
def transientMsg (m : String) : Bool :=
  strContains m "fetch failed" || strContains m "ECONNREFUSED"
    || strContains m "timeout" || strContains m "network"

/-- Transient-network classification applied to a thrown exception
(`src/supabase.ts` lines 152-158) — note: no `network` substring test here. -/
def exnTransient (name m : String) : Bool :=
  strContains m "fetch failed" || strContains m "ECONNREFUSED"
    || strContains m "timeout" || name == "AbortError" || name == "TimeoutError"

/-- Mutable state threaded through the retry loop (`lastError`, `data`,
`error` variables plus the performed backoff waits, in milliseconds). -/
structure LoopState where
  lastError : Option String
  data : Option RawRecord
  error : Option (String × String)
  waits : List Nat
deriving Repr

/-- How one loop iteration ends: fall through to the next attempt, `break`
out to the post-loop handling, or rethrow an exception. -/
inductive IterOut
  | next (st : LoopState)
  | broke (st : LoopState)
  | threw (message : String) (st : LoopState)

/-- One iteration of the retry loop (body of the `for` on
`src/supabase.ts` lines 115-171) at a given 1-based attempt index. -/
def attemptStep (store : Nat → AttemptResult) (attempt : Nat) (st : LoopState) : IterOut :=
  match store attempt with
  | .ok d => .broke { st with data := d, error := none }
  | .qerr c m =>
      let st1 := { st with data := none, error := some (c, m) }
      if c == "PGRST116" then .broke st1
      else if attempt < 3 && transientMsg m then
        .next { st1 with waits := st1.waits ++ [1000 * attempt], lastError := some m }
      else .broke st1
  | .exn nm m =>
      if attempt < 3 && exnTransient nm m then
        .next { st with waits := st.waits ++ [1000 * attempt], lastError := some m }
      else .threw m st

/-- The full three-attempt loop; the second component counts the attempts
actually performed.  The loop can only continue past attempt 3 vacuously, in
which case it exits with the final state exactly as the `for` loop does. -/
def loopResult (store : Nat → AttemptResult) : IterOut × Nat :=
  match attemptStep store 1 ⟨none, none, none, []⟩ with
  | .next s1 =>
      match attemptStep store 2 s1 with
      | .next s2 =>
          match attemptStep store 3 s2 with
          | .next s3 => (.broke s3, 3)
          | out => (out, 3)
      | out => (out, 2)
  | out => (out, 1)

/-- Tri-state outcome of the resolver: canonical order, not-found, or a
raised error (its message). -/
inductive LookupOutcome
  | found (resp : LookupOrderResponse)
  | notFound
  | raise (msg : String)
deriving DecidableEq, Repr

/-- Observable trace of one `lookupOrder` call: the outcome, the coerced
query value it used, how many query attempts ran, and the backoff waits. -/
structure LookupTrace where
  outcome : LookupOutcome
  queryVal : QueryVal
  attemptsUsed : Nat
  waits : List Nat

/-- Post-loop handling of `lookupOrder` (`src/supabase.ts` lines 173-204):
the not-found sentinel, error surfacing, the after-retries network check,
and the null-data fallback, followed by normalization. -/
def lookupFinish (now : String) (st : LoopState) : LookupOutcome :=
  match st.error with
  | some (c, m) =>
      if c == "PGRST116" then .notFound
      else if strContains m "fetch failed" || strContains m "ECONNREFUSED" then
        .raise "Network connection failed: Unable to connect to Supabase database. Please verify SUPABASE_URL is correct and the database is accessible."
      else .raise ("Database query failed: " ++ m)
  | none =>
      match st.lastError, st.data with
      | some lm, none =>
          .raise ("Network connection failed after retries: "
            ++ (if lm ≠ "" then lm else "Unable to connect to Supabase"))
      | _, _ =>
          match st.data with
          | none => .notFound
          | some d =>
              match normalizeRecord now d with
              | .ok resp => .found resp
              | .error m => .raise m

/-- The resolver `lookupOrder` (`src/supabase.ts` lines 90-373): identifier
coercion, the bounded retry loop against the `store` oracle, and the
post-loop handling.  `now` stands for the current time as an ISO string. -/
def lookupOrder (now : String) (orderId : String) (store : Nat → AttemptResult) : LookupTrace :=
  let queryOrderId : QueryVal :=
    match jsParseInt orderId with
    | some n => .num n
    | none => .str orderId
  match loopResult store with
  | (.threw m st, used) =>
      ⟨.raise m, queryOrderId, used, st.waits⟩
  | (.next st, used) | (.broke st, used) =>
      ⟨lookupFinish now st, queryOrderId, used, st.waits⟩

/-- Truthiness of a canonical optional string field (`if (order.x)`). -/
def truthyStrOpt : Option String → Bool
  | none => false
  | some s => s ≠ ""

/-- Model of `a || b` on canonical optional string fields. -/
def strOr (a b : Option String) : Option String :=
  if truthyStrOpt a then a else b

/-- English month name used by the `en-US` locale rendering. -/
def monthName : Nat → String
  | 1 => "January" | 2 => "February" | 3 => "March" | 4 => "April"
  | 5 => "May" | 6 => "June" | 7 => "July" | 8 => "August"
  | 9 => "September" | 10 => "October" | 11 => "November" | 12 => "December"
  | _ => ""

/-- Model of `new Date(s).toLocaleDateString("en-US", {year, month, day})`;
an unparsable input renders as `Invalid Date` (locale methods do not throw). -/
def localeDateOf (s : String) : String :=
  match parseJsDate s with
  | some d => monthName d.month ++ " " ++ toString d.day ++ ", " ++ toString d.year
  | none => "Invalid Date"

/-- Model of `new Date(s).toLocaleString("en-US", {..., hour, minute})`. -/
def localeDateTimeOf (s : String) : String :=
  match parseJsDate s with
  | some d =>
      let h12 := if d.hour % 12 == 0 then 12 else d.hour % 12
      monthName d.month ++ " " ++ toString d.day ++ ", " ++ toString d.year
        ++ ", " ++ toString h12 ++ ":" ++ padNat 2 d.minute
        ++ " " ++ (if d.hour < 12 then "AM" else "PM")
  | none => "Invalid Date"

/-- Model of `n.toFixed(2)` on a possibly-NaN number (integers only). -/
def toFixed2 : JsNum → String
  | .int n => toString n ++ ".00"
  | .nan => "NaN"

/-- `formatOrderForAgent` (`src/supabase.ts` lines 379-487): conditional
clause sequence joined by `". "` with a trailing period. -/
def formatOrderForAgent (o : LookupOrderResponse) : String :=
  let parts : List String :=
    [("Order " ++ o.order_id ++ " is " ++ o.status)]
    ++ (match o.customer_name with
        | some s => if s ≠ "" then [("Customer: " ++ s)] else [] | none => [])
    ++ (match o.customer_phone with
        | some s => if s ≠ "" then [("Phone: " ++ s)] else [] | none => [])
    ++ (match o.product_name with
        | some s => if s ≠ "" then [("Product: " ++ s)] else [] | none => [])
    ++ (match o.product_id with
        | some s => if s ≠ "" then [("Product ID: " ++ s)] else [] | none => [])
    ++ (match o.category with
        | some s => if s ≠ "" then [("Category: " ++ s)] else [] | none => [])
    ++ (match strOr o.eta o.estimated_delivery_date with
        | some s => if s ≠ "" then [("Estimated delivery: " ++ localeDateOf s)] else []
        | none => [])
    ++ (match o.tracking_number with
        | some tn =>
            if tn ≠ "" then
              match strOr o.carrier o.delivery_partner with
              | some c =>
                  if c ≠ "" then [("Tracking: " ++ tn ++ " via " ++ c)]
                  else [("Tracking number: " ++ tn)]
              | none => [("Tracking number: " ++ tn)]
            else
              match strOr o.carrier o.delivery_partner with
              | some c => if c ≠ "" then [("Carrier: " ++ c)] else []
              | none => []
        | none =>
            match strOr o.carrier o.delivery_partner with
            | some c => if c ≠ "" then [("Carrier: " ++ c)] else []
            | none => [])
    ++ (match o.delivery_address with
        | some s => if s ≠ "" then [("Delivery address: " ++ s)] else [] | none => [])
    ++ (match o.payment_method with
        | some s => if s ≠ "" then [("Payment method: " ++ s)] else [] | none => [])
    ++ (if o.order_date ≠ "" then [("Order date: " ++ localeDateOf o.order_date)] else [])
    ++ (match strOr o.issue_flag o.issue_type with
        | some s => if s ≠ "" then [("Issue: " ++ s)] else [] | none => [])
    ++ (match o.return_eligible with
        | some b => [("Return eligible: " ++ (if b then "Yes" else "No"))] | none => [])
    ++ (match o.refund_amount with
        | some n => [("Refund amount: $" ++ toFixed2 n)] | none => [])
    ++ (match o.notes with
        | some s => if s ≠ "" then [("Notes: " ++ s)] else [] | none => [])
    ++ [("Last updated: " ++ localeDateTimeOf o.last_update)]
  String.intercalate ". " parts ++ "."

/-- JSON value, the model of the untyped request `body` and of `params`. -/
inductive JVal
  | jnull
  | jbool (b : Bool)
  | jnum (n : Int)
  | jstr (s : String)
  | jarr (elems : List JVal)
  | jobj (fields : List (String × JVal))

/-- Property access on a JSON object field list (`obj[k]`; `none` models
`undefined`). -/
def jlookup (fields : List (String × JVal)) (k : String) : Option JVal :=
  (fields.find? (fun p => p.1 == k)).map (fun p => p.2)

/-- JSON-RPC request id: a string, a number, or null. -/
inductive RpcId
  | str (s : String)
  | num (n : Int)
  | null
deriving DecidableEq, Repr

/-- The `structured` sub-object of a successful `tools/call` result
(`src/mcp.ts` lines 216-225); `issue_flag` / `notes` only when truthy. -/
structure StructuredOrder where
  order_id : String
  status : String
  eta : Option String
  carrier : Option String
  tracking_number : Option String
  last_update : String
  issue_flag : Option String
  notes : Option String
deriving DecidableEq, Repr

/-- Result payload of a success envelope.  The fixed `init` handshake
descriptor, ping acknowledgment and static tool catalog are modelled as
opaque tags since no claim inspects their bodies. -/
inductive RpcResult
  | initResult
  | pingOk
  | toolsList
  | toolCall (text : String) (structured : StructuredOrder)
deriving DecidableEq, Repr

/-- JSON-RPC 2.0 response envelope (`JsonRpcResponse` in `src/types.ts`):
either a success with a result, or a failure with `code` and `message`
(the optional `error.data` payload is not modelled — no claim reads it). -/
inductive JsonRpcResponse
  | success (id : RpcId) (result : RpcResult)
  | failure (id : RpcId) (code : Int) (message : String)
deriving DecidableEq, Repr

/-- `JsonRpcErrorCode.InvalidRequest`. -/
def invalidRequestCode : Int := -32600

/-- `JsonRpcErrorCode.MethodNotFound`. -/
def methodNotFoundCode : Int := -32601

/-- `JsonRpcErrorCode.InvalidParams`. -/
def invalidParamsCode : Int := -32602

/-- `JsonRpcErrorCode.InternalError`. -/
def internalErrorCode : Int := -32603

/-- `JsonRpcErrorCode.OrderNotFound` (application-specific). -/
def orderNotFoundCode : Int := -32004

/-- `validateJsonRpcRequest` (`src/mcp.ts` lines 31-42): object carrying
`jsonrpc === "2.0"`, a string `method`, and an id that is strictly null, a
string, or a number (a missing id fails the strict null comparison). -/
def validateJsonRpcRequest (body : JVal) : Bool :=
  match body with
  | .jobj fs =>
      (match jlookup fs "jsonrpc" with
       | some (.jstr v) => v == "2.0"
       | _ => false)
      && (match jlookup fs "method" with
          | some (.jstr _) => true
          | _ => false)
      && (match jlookup fs "id" with
          | some .jnull => true
          | some (.jstr _) => true
          | some (.jnum _) => true
          | _ => false)
  | _ => false

/-- `ToolCallParamsSchema.safeParse` (`src/mcp.ts` lines 19-22): an object
with a string `name` and a mapping `arguments`. -/
def parseToolCallParams : Option JVal → Option (String × List (String × JVal))
  | some (.jobj fs) =>
      match jlookup fs "name", jlookup fs "arguments" with
      | some (.jstr n), some (.jobj args) => some (n, args)
      | _, _ => none
  | _ => none

/-- `LookupOrderArgumentsSchema.safeParse` (`src/mcp.ts` lines 24-26):
`order_id` must be a string of length at least 1. -/
def parseLookupArgs (args : List (String × JVal)) : Option String :=
  match jlookup args "order_id" with
  | some (.jstr s) => if s.length ≥ 1 then some s else none
  | _ => none

/-- Conditional spread building the `structured` sub-object. -/
def structuredOf (o : LookupOrderResponse) : StructuredOrder :=
  { order_id := o.order_id
    status := o.status
    eta := o.eta
    carrier := o.carrier
    tracking_number := o.tracking_number
    last_update := o.last_update
    issue_flag := if truthyStrOpt o.issue_flag then o.issue_flag else none
    notes := if truthyStrOpt o.notes then o.notes else none }

/-- `handleToolsCall` (`src/mcp.ts` lines 141-253).  The resolver is passed
as an oracle from order identifier to tri-state outcome; a raised resolver
error is caught and converted to an Internal Error envelope. -/
def handleToolsCall (id : RpcId) (params : Option JVal)
    (resolver : String → LookupOutcome) : JsonRpcResponse :=
  match parseToolCallParams params with
  | none => .failure id invalidParamsCode "Invalid params: name and arguments are required"
  | some (name, toolArgs) =>
      if name == "lookup_order" then
        match parseLookupArgs toolArgs with
        | none =>
            .failure id invalidParamsCode
              "Invalid arguments: order_id is required and must be a non-empty string"
        | some order_id =>
            match resolver order_id with
            | .notFound => .failure id orderNotFoundCode ("Order not found: " ++ order_id)
            | .found order =>
                .success id (.toolCall (formatOrderForAgent order) (structuredOf order))
            | .raise _ =>
                .failure id internalErrorCode "Internal server error while looking up order"
      else
        .failure id invalidParamsCode ("Unknown tool: " ++ name ++ ". Available tools: lookup_order")

/-- Extraction of the request id after validation (`const { id } = request`). -/
def extractId (fs : List (String × JVal)) : RpcId :=
  match jlookup fs "id" with
  | some (.jstr s) => .str s
  | some (.jnum n) => .num n
  | _ => .null

/-- The error envelope returned for a malformed request envelope. -/
def invalidRequestResp : JsonRpcResponse :=
  .failure .null invalidRequestCode
    "Invalid JSON-RPC 2.0 request. Must have jsonrpc 2.0, method (string), and id (string, number or null)"

/-- `handleMcpRequest` (`src/mcp.ts` lines 259-312): envelope validation,
the four-method routing table, the Method Not Found fallback. -/
def handleMcpRequest (body : JVal) (resolver : String → LookupOutcome) : JsonRpcResponse :=
  match body with
  | .jobj fs =>
      if validateJsonRpcRequest (.jobj fs) then
        let id := extractId fs
        match jlookup fs "method" with
        | some (.jstr method) =>
            if method == "initialize" then .success id .initResult
            else if method == "ping" then .success id .pingOk
            else if method == "tools/list" then .success id .toolsList
            else if method == "tools/call" then
              handleToolsCall id (jlookup fs "params") resolver
            else .failure id methodNotFoundCode ("Method not found: " ++ method)
        | _ => invalidRequestResp
      else invalidRequestResp
  | _ => invalidRequestResp

/-- Spec-side reading of the precedence rules: an ordered key list where the
first non-absent (truthy) value wins, and a fully absent chain is `none`. -/
def firstPresent : List (Option RawVal) → Option RawVal
  | [] => none
  | v :: rest => if truthyOpt v then v else firstPresent rest

/-- Spec-side reading of status normalization: take the value present (the
`status` column ahead of `order_status`), uppercase it, classify by substring
against the six keyword families, pass an unmatched value through, and
default to `PROCESSING` when no value is present. -/
def specStatusOf (statusCol orderStatusCol : Option RawVal) : String :=
  match firstPresent [statusCol, orderStatusCol] with
  | none => "PROCESSING"
  | some v =>
      let u := jsToUpper (jsString v)
      if strContains u "SHIPPED" || strContains u "SHIPPING" then "SHIPPED"
      else if strContains u "DELIVERED" || strContains u "DELIVERY" then "DELIVERED"
      else if strContains u "PROCESSING" || strContains u "PROCESS" then "PROCESSING"
      else if strContains u "CANCELED" || strContains u "CANCELLED" then "CANCELED"
      else if strContains u "RETURNED" || strContains u "RETURN" then "RETURNED"
      else if strContains u "HOLD" || strContains u "ON_HOLD" then "ON_HOLD"
      else u

/-- Spec-side reading of a well-formed envelope: an object carrying
`jsonrpc = "2.0"`, a string `method`, and an id that is a string, a number,
or null — a missing id counted as acceptable. -/
def claimWellFormedBody (body : JVal) : Bool :=
  match body with
  | .jobj fs =>
      (match jlookup fs "jsonrpc" with
       | some (.jstr v) => v == "2.0"
       | _ => false)
      && (match jlookup fs "method" with
          | some (.jstr _) => true
          | _ => false)
      && (match jlookup fs "id" with
          | none => true
          | some .jnull => true
          | some (.jstr _) => true
          | some (.jnum _) => true
          | _ => false)
  | _ => false

/-- A timestamp-source value whose tolerant coercion does not fall back to
the current time: truthy and parseable. -/
def tsIndep : Option RawVal → Bool
  | some (.vStr s) => decide (s ≠ "") && (parseJsDate s).isSome
  | some (.vNum n) => decide (n ≠ 0) && (msToJsDate n).isSome
  | _ => false

/-- Collapse a possibly-absent value to `none` when falsy (spec-side device
relating `||` chains to `firstPresent`). -/
def normTruthy (x : Option RawVal) : Option RawVal :=
  if truthyOpt x then x else none

/-- A well-formed `tools/call` params object invoking `lookup_order`. -/
def mkToolParams (oid : String) : Option JVal :=
  some (.jobj [("name", .jstr "lookup_order"), ("arguments", .jobj [("order_id", .jstr oid)])])

/-- Every failure envelope the dispatcher can build carries one of the five
documented error codes. -/
def respCodeValid : JsonRpcResponse → Bool
  | .success _ _ => true
  | .failure _ c _ =>
      c == invalidRequestCode || c == methodNotFoundCode || c == invalidParamsCode
        || c == internalErrorCode || c == orderNotFoundCode

theorem listStartsWith_append (n post : List Char) : listStartsWith n (n ++ post) = true := by
  induction n with
  | nil => rfl
  | cons a as ih => simp [listStartsWith, ih]

theorem strContainsAux_cons (n : List Char) (c : Char) (cs : List Char)
    (h : strContainsAux n cs = true) : strContainsAux n (c :: cs) = true := by
  simp [strContainsAux, h]

theorem strContainsAux_here (n hay : List Char) (h : listStartsWith n hay = true) :
    strContainsAux n hay = true := by
  cases hay with
  | nil => simpa [strContainsAux] using h
  | cons c cs => simp [strContainsAux, h]

theorem strContainsAux_mid (p n q : List Char) : strContainsAux n (p ++ n ++ q) = true := by
  induction p with
  | nil => exact strContainsAux_here _ _ (by simpa using listStartsWith_append n q)
  | cons c cs ih => exact strContainsAux_cons _ _ _ (by simpa using ih)

theorem strContains_mid (pre n post : String) : strContains (pre ++ n ++ post) n = true := by
  unfold strContains
  rw [String.data_append, String.data_append]
  exact strContainsAux_mid pre.data n.data post.data

theorem toDigits_length_pos (b n : Nat) : 0 < (Nat.toDigits b n).length := by
  show 0 < (Nat.toDigitsCore b (n + 1) n []).length
  simp only [Nat.toDigitsCore]
  split
  · simp
  · rw [Nat.toDigitsCore_lens_eq]
    omega

theorem natRepr_ne_empty (n : Nat) : Nat.repr n ≠ "" := by
  intro hc
  have hd := congrArg String.data hc
  have hl := toDigits_length_pos 10 n
  simp only [Nat.repr, List.asString] at hd
  rw [show (Nat.toDigits 10 n : List Char) = (String.mk (Nat.toDigits 10 n)).data from rfl, hd] at hl
  simp at hl

theorem intToString_ne_empty (n : Int) : toString n ≠ "" := by
  show Int.repr n ≠ ""
  cases n with
  | ofNat m => simpa [Int.repr] using natRepr_ne_empty m
  | negSucc m =>
      intro hc
      have hd := congrArg String.data hc
      simp [Int.repr, String.data_append] at hd

theorem jsString_ne_empty (v : RawVal) (h : truthy v = true) : jsString v ≠ "" := by
  cases v with
  | vStr s => simpa [truthy, jsString] using h
  | vNum n => exact intToString_ne_empty n
  | vBool b => cases b <;> simp_all [truthy, jsString]

theorem tsIndep_truthy (x : Option RawVal) (h : tsIndep x = true) : truthyOpt x = true := by
  cases x with
  | none => simp [tsIndep] at h
  | some v =>
      cases v with
      | vStr s => simp [tsIndep] at h; simpa [truthyOpt, truthy] using h.1
      | vNum n => simp [tsIndep] at h; simpa [truthyOpt, truthy] using h.1
      | vBool b => simp [tsIndep] at h

theorem toTimestampStr_indep (x : Option RawVal) (h : tsIndep x = true) (t1 t2 : String) :
    toTimestampStr t1 x = toTimestampStr t2 x := by
  cases x with
  | none => simp [tsIndep] at h
  | some v =>
      cases v with
      | vStr s =>
          simp only [tsIndep, Bool.and_eq_true, decide_eq_true_eq, Option.isSome_iff_exists] at h
          obtain ⟨hs, d, hd⟩ := h
          simp [toTimestampStr, truthy, hs, hd]
      | vNum n =>
          simp only [tsIndep, Bool.and_eq_true, decide_eq_true_eq, Option.isSome_iff_exists] at h
          obtain ⟨hn, d, hd⟩ := h
          simp [toTimestampStr, truthy, hn, hd]
      | vBool b => simp [tsIndep] at h

theorem toStr_falsy (x : Option RawVal) (h : truthyOpt x = false) : toStr x = none := by
  cases x with
  | none => rfl
  | some v => simp_all [toStr, truthyOpt]

theorem toStr_normTruthy (x : Option RawVal) : toStr (normTruthy x) = toStr x := by
  unfold normTruthy
  cases h : truthyOpt x with
  | true => simp
  | false =>
      rw [if_neg (by simp [h])]
      exact (toStr_falsy x h).symm

theorem toDateStr_falsy (x : Option RawVal) (h : truthyOpt x = false) : toDateStr x = none := by
  cases x with
  | none => rfl
  | some v => simp_all [toDateStr, truthyOpt]

theorem toDateStr_normTruthy (x : Option RawVal) : toDateStr (normTruthy x) = toDateStr x := by
  unfold normTruthy
  cases h : truthyOpt x with
  | true => simp
  | false =>
      rw [if_neg (by simp [h])]
      exact (toDateStr_falsy x h).symm

theorem firstPresent_pair (a b : Option RawVal) :
    firstPresent [a, b] = normTruthy (jsOr a b) := by
  cases ha : truthyOpt a <;> cases hb : truthyOpt b <;>
    simp [firstPresent, normTruthy, jsOr, ha, hb]

theorem firstPresent_triple (a b c : Option RawVal) :
    firstPresent [a, b, c] = normTruthy (jsOr (jsOr a b) c) := by
  cases ha : truthyOpt a <;> cases hb : truthyOpt b <;> cases hc : truthyOpt c <;>
    simp [firstPresent, normTruthy, jsOr, ha, hb, hc]

theorem truthyOpt_eq_some (y : Option RawVal) (x : RawVal) (hy : truthyOpt y = true) :
    y = some (y.getD x) := by
  cases y with
  | none => simp [truthyOpt] at hy
  | some v => rfl

theorem firstPresent_quad_getD (a b c d : Option RawVal) (x : RawVal) :
    jsOr (jsOr (jsOr (jsOr a b) c) d) (some x)
      = some ((firstPresent [a, b, c, d]).getD x) := by
  cases ha : truthyOpt a <;> cases hb : truthyOpt b <;> cases hc : truthyOpt c <;>
      cases hd : truthyOpt d <;>
    simp [firstPresent, jsOr, ha, hb, hc, hd] <;>
    first
      | rfl
      | exact truthyOpt_eq_some a x ha
      | exact truthyOpt_eq_some b x hb
      | exact truthyOpt_eq_some c x hc
      | exact truthyOpt_eq_some d x hd

theorem mapStatus_falsy (x : Option RawVal) (h : truthyOpt x = false) :
    mapStatus x = "PROCESSING" := by
  cases x with
  | none => rfl
  | some v => simp_all [mapStatus, truthyOpt]

/-- Fixed reference time used by the concrete test records. -/
def t0 : String := "2024-01-02T03:04:05.678Z"

/-- Resolver stub that reports every identifier absent. -/
def nullResolver : String → LookupOutcome := fun _ => .notFound

/-- C4 (confirmed): status normalization — the status block of `lookupOrder`
agrees, for every pair of raw status columns, with the spec-side classifier:
`PROCESSING` when neither column carries a value, else uppercase the present
value (the `status` column first), classify by substring against the six
keyword families in order, and pass an unmatched value through uppercased. -/
theorem status_classification_matches_spec (a b : Option RawVal) :
    mapStatus (jsOr a b) = specStatusOf a b := by
  cases ha : truthyOpt a with
  | true =>
      obtain ⟨v, rfl⟩ : ∃ v, a = some v := by
        cases a with
        | none => simp [truthyOpt] at ha
        | some v => exact ⟨v, rfl⟩
      have hv : truthy v = true := by simpa [truthyOpt] using ha
      simp [mapStatus, specStatusOf, firstPresent, jsOr, truthyOpt, hv]
  | false =>
      cases hb : truthyOpt b with
      | true =>
          obtain ⟨w, rfl⟩ : ∃ w, b = some w := by
            cases b with
            | none => simp [truthyOpt] at hb
            | some w => exact ⟨w, rfl⟩
          have hw : truthy w = true := by simpa [truthyOpt] using hb
          have hj : jsOr a (some w) = some w := by unfold jsOr; rw [ha]; simp
          have hf : firstPresent [a, some w] = some w := by
            unfold firstPresent
            rw [ha]
            simp only [Bool.false_eq_true, if_false]
            unfold firstPresent
            simp [truthyOpt, hw]
          rw [hj]
          unfold specStatusOf
          rw [hf]
          simp [mapStatus, hw]
      | false =>
          rw [show jsOr a b = b from by simp [jsOr, ha]]
          rw [mapStatus_falsy b hb]
          simp [specStatusOf, firstPresent, ha, hb]

theorem validate_imp_claimWF (body : JVal) (h : validateJsonRpcRequest body = true) :
    claimWellFormedBody body = true := by
  cases body with
  | jobj fs =>
      simp only [validateJsonRpcRequest, Bool.and_eq_true] at h
      obtain ⟨⟨h1, h2⟩, h3⟩ := h
      simp only [claimWellFormedBody, Bool.and_eq_true]
      refine ⟨⟨h1, h2⟩, ?_⟩
      revert h3
      cases jlookup fs "id" with
      | none => simp
      | some v => cases v <;> simp
  | jnull => simp [validateJsonRpcRequest] at h
  | jbool b => simp [validateJsonRpcRequest] at h
  | jnum n => simp [validateJsonRpcRequest] at h
  | jstr s => simp [validateJsonRpcRequest] at h
  | jarr es => simp [validateJsonRpcRequest] at h

/-- C6 (confirmed): every request body that is not an object carrying
`jsonrpc = "2.0"`, a string method, and a string/number/null id (a missing
id counted as acceptable) is answered with an Invalid Request (-32600)
envelope whose id is null. -/
theorem malformed_envelope_invalid_request (body : JVal)
    (resolver : String → LookupOutcome)
    (h : claimWellFormedBody body = false) :
    handleMcpRequest body resolver
      = .failure .null invalidRequestCode
          "Invalid JSON-RPC 2.0 request. Must have jsonrpc 2.0, method (string), and id (string, number or null)" := by
  have hv : validateJsonRpcRequest body = false := by
    cases hvv : validateJsonRpcRequest body with
    | false => rfl
    | true => rw [validate_imp_claimWF body hvv] at h; exact absurd h (by simp)
  cases body with
  | jobj fs => simp [handleMcpRequest, hv, invalidRequestResp]
  | jnull => rfl
  | jbool b => rfl
  | jnum n => rfl
  | jstr s => rfl
  | jarr es => rfl

/-- C6 witness: a bare number body is rejected with id null. -/
theorem malformed_envelope_witness :
    handleMcpRequest (.jnum 5) nullResolver
      = .failure .null invalidRequestCode
          "Invalid JSON-RPC 2.0 request. Must have jsonrpc 2.0, method (string), and id (string, number or null)" :=
  malformed_envelope_invalid_request (.jnum 5) nullResolver rfl

/-- C2 (confirmed): `tools/call` parameter validation — a params shape that
fails the `{name, arguments}` schema yields Invalid Params; an unknown tool
name yields Invalid Params naming the tool; a missing, non-string, or empty
`order_id` fails the argument schema and yields Invalid Params; and a
resolver not-found outcome yields OrderNotFound (-32004) whose message
contains the identifier. -/
theorem tools_call_validation (id : RpcId) (params : Option JVal)
    (resolver : String → LookupOutcome) :
    (parseToolCallParams params = none →
      handleToolsCall id params resolver
        = .failure id invalidParamsCode "Invalid params: name and arguments are required")
    ∧ (∀ n args, parseToolCallParams params = some (n, args) → n ≠ "lookup_order" →
        handleToolsCall id params resolver
          = .failure id invalidParamsCode
              ("Unknown tool: " ++ n ++ ". Available tools: lookup_order")
        ∧ strContains ("Unknown tool: " ++ n ++ ". Available tools: lookup_order") n = true)
    ∧ (∀ args, parseToolCallParams params = some ("lookup_order", args) →
        parseLookupArgs args = none →
        handleToolsCall id params resolver
          = .failure id invalidParamsCode
              "Invalid arguments: order_id is required and must be a non-empty string")
    ∧ (∀ args, jlookup args "order_id" = none ∨ jlookup args "order_id" = some (.jstr "")
        ∨ (∀ s, jlookup args "order_id" ≠ some (.jstr s)) →
        parseLookupArgs args = none)
    ∧ (∀ args oid, parseToolCallParams params = some ("lookup_order", args) →
        parseLookupArgs args = some oid → resolver oid = .notFound →
        handleToolsCall id params resolver
          = .failure id orderNotFoundCode ("Order not found: " ++ oid)
        ∧ strContains ("Order not found: " ++ oid) oid = true) := by
  refine ⟨?_, ?_, ?_, ?_, ?_⟩
  · intro h
    simp [handleToolsCall, h]
  · intro n args h hn
    have hb : (n == "lookup_order") = false := by
      simp [hn]
    refine ⟨by simp [handleToolsCall, h, hb], ?_⟩
    exact strContains_mid "Unknown tool: " n ". Available tools: lookup_order"
  · intro args h ha
    simp [handleToolsCall, h, ha]
  · intro args h
    rcases h with h | h | h
    · simp [parseLookupArgs, h]
    · simp [parseLookupArgs, h]
    · unfold parseLookupArgs
      cases hj : jlookup args "order_id" with
      | none => rfl
      | some v =>
          cases v with
          | jstr s => exact absurd hj (h s)
          | jnull => rfl
          | jbool b => rfl
          | jnum n => rfl
          | jarr es => rfl
          | jobj fs => rfl
  · intro args oid h ha hres
    refine ⟨by simp [handleToolsCall, h, ha, hres], ?_⟩
    have := strContains_mid "Order not found: " oid ""
    simpa using this

theorem mapStatus_normTruthy (x : Option RawVal) : mapStatus (normTruthy x) = mapStatus x := by
  unfold normTruthy
  cases h : truthyOpt x with
  | true => simp
  | false =>
      rw [if_neg (by simp [h])]
      exact (mapStatus_falsy x h).symm

/-- The canonical output of normalization on a record whose identifier is
truthy, with every field written out. -/
theorem normalizeRecord_ok (now : String) (r : RawRecord) (oid : RawVal)
    (hoid : r.order_id = some oid) (hto : truthy oid = true) :
    normalizeRecord now r = .ok {
      order_id := jsString oid
      status := mapStatus (jsOr r.status r.order_status)
      order_status := toStr r.order_status
      customer_name := toStr r.customer_name
      customer_phone := toStr r.customer_phone
      product_id := toStr r.product_id
      product_name := toStr r.product_name
      category := toStr r.category
      eta := toDateStr (jsOr r.eta r.estimated_delivery_date)
      estimated_delivery_date := toDateStr r.estimated_delivery_date
      carrier := toStr (jsOr r.carrier r.delivery_partner)
      delivery_partner := toStr r.delivery_partner
      delivery_address := toStr r.delivery_address
      tracking_number := toStr (jsOr (jsOr r.tracking_number r.tracking_id) r.tracking)
      payment_method := toStr r.payment_method
      order_date := toTimestampStr now r.order_date
      created_at := toTimestampStr now r.created_at
      last_update := toTimestampStr now
        (jsOr (jsOr (jsOr (jsOr r.last_update r.updated_at) r.order_date) r.created_at)
          (some (.vStr now)))
      issue_flag := toStr (jsOr r.issue_flag r.issue_type)
      issue_type := toStr r.issue_type
      return_eligible := r.return_eligible.map truthy
      refund_amount := r.refund_amount.map jsNumberOf
      notes := toStr (jsOr r.notes r.order_notes)
    } := by
  unfold normalizeRecord
  rw [hoid]
  simp [hto]

/-- C10 (confirmed): field-precedence fallbacks test truthiness, not
presence — when a new-generation column holds a falsy value (empty string,
0, or false) while its legacy counterpart is truthy, the canonical field is
computed from the legacy column, exactly as if the new-generation column
were absent (shown here for the claimed `status` and `eta` fields). -/
theorem falsy_fallback_truthiness (r : RawRecord) (now : String) (v w x y : RawVal)
    (hid : truthyOpt r.order_id = true)
    (hs : r.status = some v) (hsf : truthy v = false)
    (ho : r.order_status = some w)
    (he : r.eta = some x) (hef : truthy x = false)
    (hed : r.estimated_delivery_date = some y) :
    ∃ resp, normalizeRecord now r = .ok resp
      ∧ resp.status = mapStatus (some w)
      ∧ resp.eta = toDateStr (some y) := by
  obtain ⟨oid, hoid⟩ : ∃ o, r.order_id = some o := by
    cases hh : r.order_id with
    | none => rw [hh] at hid; simp [truthyOpt] at hid
    | some o => exact ⟨o, rfl⟩
  have hto : truthy oid = true := by rw [hoid] at hid; simpa [truthyOpt] using hid
  refine ⟨_, normalizeRecord_ok now r oid hoid hto, ?_, ?_⟩
  · show mapStatus (jsOr r.status r.order_status) = mapStatus (some w)
    rw [hs, ho]
    unfold jsOr
    rw [show truthyOpt (some v) = false from by simpa [truthyOpt] using hsf]
    simp
  · show toDateStr (jsOr r.eta r.estimated_delivery_date) = toDateStr (some y)
    rw [he, hed]
    unfold jsOr
    rw [show truthyOpt (some x) = false from by simpa [truthyOpt] using hef]
    simp

/-- Concrete record exercising the falsy-fallback behaviour. -/
def falsyNewGenRecord : RawRecord :=
  { order_id := some (.vStr "A1"), status := some (.vStr ""),
    order_status := some (.vStr "Shipped"), eta := some (.vStr ""),
    estimated_delivery_date := some (.vStr "2024-03-15") }

/-- C10 witness: empty-string `status`/`eta` fall back to the legacy
`order_status`/`estimated_delivery_date` values. -/
theorem falsy_fallback_witness :
    ∃ resp, normalizeRecord t0 falsyNewGenRecord = .ok resp
      ∧ resp.status = "SHIPPED" ∧ resp.eta = some "2024-03-15" := by
  obtain ⟨resp, h1, h2, h3⟩ :=
    falsy_fallback_truthiness falsyNewGenRecord t0 (.vStr "") (.vStr "Shipped")
      (.vStr "") (.vStr "2024-03-15") (by decide) rfl (by decide) rfl rfl (by decide) rfl
  exact ⟨resp, h1, by rw [h2]; decide, by rw [h3]; decide⟩

/-- C3 (confirmed, with the spec's own reading of "absent" as falsy-empty):
each canonical field is resolved by its ordered key list with the first
truthy value winning — `eta` from `eta` then `estimated_delivery_date`,
`carrier` from `carrier` then `delivery_partner`, `tracking_number` from
`tracking_number`/`tracking_id`/`tracking`, `last_update` from
`last_update`/`updated_at`/`order_date`/`created_at` then the current time,
`issue_flag` from `issue_flag` then `issue_type`, `notes` from `notes` then
`order_notes` — and a truthy new-generation value always wins. -/
theorem field_precedence_chains (r : RawRecord) (now : String)
    (hid : truthyOpt r.order_id = true) :
    ∃ resp, normalizeRecord now r = .ok resp
      ∧ resp.eta = toDateStr (firstPresent [r.eta, r.estimated_delivery_date])
      ∧ resp.carrier = toStr (firstPresent [r.carrier, r.delivery_partner])
      ∧ resp.tracking_number
          = toStr (firstPresent [r.tracking_number, r.tracking_id, r.tracking])
      ∧ resp.last_update = toTimestampStr now
          (some ((firstPresent [r.last_update, r.updated_at, r.order_date, r.created_at]).getD
            (.vStr now)))
      ∧ resp.issue_flag = toStr (firstPresent [r.issue_flag, r.issue_type])
      ∧ resp.notes = toStr (firstPresent [r.notes, r.order_notes])
      ∧ resp.status = mapStatus (firstPresent [r.status, r.order_status])
      ∧ (truthyOpt r.eta = true → resp.eta = toDateStr r.eta)
      ∧ (truthyOpt r.carrier = true → resp.carrier = toStr r.carrier)
      ∧ (truthyOpt r.tracking_number = true → resp.tracking_number = toStr r.tracking_number)
      ∧ (truthyOpt r.last_update = true → resp.last_update = toTimestampStr now r.last_update)
      ∧ (truthyOpt r.issue_flag = true → resp.issue_flag = toStr r.issue_flag)
      ∧ (truthyOpt r.notes = true → resp.notes = toStr r.notes) := by
  obtain ⟨oid, hoid⟩ : ∃ o, r.order_id = some o := by
    cases hh : r.order_id with
    | none => rw [hh] at hid; simp [truthyOpt] at hid
    | some o => exact ⟨o, rfl⟩
  have hto : truthy oid = true := by rw [hoid] at hid; simpa [truthyOpt] using hid
  refine ⟨_, normalizeRecord_ok now r oid hoid hto,
    ?_, ?_, ?_, ?_, ?_, ?_, ?_, ?_, ?_, ?_, ?_, ?_, ?_⟩
  · show toDateStr (jsOr r.eta r.estimated_delivery_date) = _
    rw [firstPresent_pair, toDateStr_normTruthy]
  · show toStr (jsOr r.carrier r.delivery_partner) = _
    rw [firstPresent_pair, toStr_normTruthy]
  · show toStr (jsOr (jsOr r.tracking_number r.tracking_id) r.tracking) = _
    rw [firstPresent_triple, toStr_normTruthy]
  · show toTimestampStr now
      (jsOr (jsOr (jsOr (jsOr r.last_update r.updated_at) r.order_date) r.created_at)
        (some (.vStr now))) = _
    rw [firstPresent_quad_getD]
  · show toStr (jsOr r.issue_flag r.issue_type) = _
    rw [firstPresent_pair, toStr_normTruthy]
  · show toStr (jsOr r.notes r.order_notes) = _
    rw [firstPresent_pair, toStr_normTruthy]
  · show mapStatus (jsOr r.status r.order_status) = _
    rw [firstPresent_pair, mapStatus_normTruthy]
  · intro h
    show toDateStr (jsOr r.eta r.estimated_delivery_date) = _
    simp [jsOr, h]
  · intro h
    show toStr (jsOr r.carrier r.delivery_partner) = _
    simp [jsOr, h]
  · intro h
    show toStr (jsOr (jsOr r.tracking_number r.tracking_id) r.tracking) = _
    simp [jsOr, h]
  · intro h
    show toTimestampStr now
      (jsOr (jsOr (jsOr (jsOr r.last_update r.updated_at) r.order_date) r.created_at)
        (some (.vStr now))) = _
    simp [jsOr, h]
  · intro h
    show toStr (jsOr r.issue_flag r.issue_type) = _
    simp [jsOr, h]
  · intro h
    show toStr (jsOr r.notes r.order_notes) = _
    simp [jsOr, h]

/-- Concrete legacy-only record (`order_status`, `estimated_delivery_date`,
`delivery_partner` populated; no new-generation columns). -/
def legacyOnlyRecord : RawRecord :=
  { order_id := some (.vStr "10000002"), order_status := some (.vStr "Shipped"),
    estimated_delivery_date := some (.vStr "2024-03-15"),
    delivery_partner := some (.vStr "Aras Kargo") }

/-- C3 witness: the legacy-only record normalizes to `SHIPPED` with `eta`
and `carrier` taken from the legacy columns. -/
theorem field_precedence_witness :
    ∃ resp, normalizeRecord t0 legacyOnlyRecord = .ok resp
      ∧ resp.status = "SHIPPED" ∧ resp.eta = some "2024-03-15"
      ∧ resp.carrier = some "Aras Kargo" := by
  obtain ⟨resp, h1, h2, h3, _, _, _, _, h8, _⟩ :=
    field_precedence_chains legacyOnlyRecord t0 (by decide)
  exact ⟨resp, h1, by rw [h8]; decide, by rw [h2]; decide, by rw [h3]; decide⟩

theorem jsOr_of_truthy (x y : Option RawVal) (h : truthyOpt x = true) : jsOr x y = x := by
  unfold jsOr
  rw [h]
  simp

theorem parseToolCallParams_mk (oid : String) :
    parseToolCallParams (mkToolParams oid)
      = some ("lookup_order", [("order_id", .jstr oid)]) := rfl

theorem parseLookupArgs_mk (oid : String) (h : 1 ≤ oid.length) :
    parseLookupArgs [("order_id", .jstr oid)] = some oid := by
  unfold parseLookupArgs jlookup
  simp [List.find?, h]

/-- C2 witness: a lookup of an absent identifier through a well-formed
`tools/call` yields OrderNotFound naming the identifier. -/
theorem tools_call_validation_witness :
    handleToolsCall (.str "9") (mkToolParams "TR-404") nullResolver
      = .failure (.str "9") orderNotFoundCode "Order not found: TR-404"
    ∧ strContains "Order not found: TR-404" "TR-404" = true := by
  have h := (tools_call_validation (.str "9") (mkToolParams "TR-404") nullResolver).2.2.2.2
    [("order_id", .jstr "TR-404")] "TR-404" (parseToolCallParams_mk "TR-404")
    (parseLookupArgs_mk "TR-404" (by decide)) rfl
  exact ⟨h.1, h.2⟩

/-- Store that answers every attempt with a found row carrying id 7. -/
def okStore7 : Nat → AttemptResult := fun _ => .ok (some { order_id := some (.vNum 7) })

/-- C5 counterexample: for the numeric identifier string "7" the resolver
queries with the parsed integer form only — the integer replaces the
original string rather than being queried alongside it — and the numeric
coercion also fires on "123abc", which does not parse fully as an integer. -/
theorem identifier_coercion_counterexample :
    (lookupOrder t0 "7" okStore7).queryVal = QueryVal.num 7
    ∧ QueryVal.num 7 ≠ QueryVal.str "7"
    ∧ (lookupOrder t0 "123abc" okStore7).queryVal = QueryVal.num 123 := by
  refine ⟨rfl, by decide, rfl⟩

/-- C5 (corrected): identifier coercion — when `parseInt` extracts an
integer from the identifier (a maximal leading digit run after optional
sign, not necessarily the full string), the resolver queries using the
parsed integer form only, replacing the original string; when `parseInt`
yields NaN the original string is used. -/
theorem identifier_coercion_amended (now s : String) (store : Nat → AttemptResult) :
    (∀ n, jsParseInt s = some n → (lookupOrder now s store).queryVal = .num n)
    ∧ (jsParseInt s = none → (lookupOrder now s store).queryVal = .str s) := by
  constructor
  · intro n h
    simp only [lookupOrder, h]
    rcases hl : loopResult store with ⟨out, used⟩
    cases out <;> simp [hl]
  · intro h
    simp only [lookupOrder, h]
    rcases hl : loopResult store with ⟨out, used⟩
    cases out <;> simp [hl]

/-- C5 witness: both branches of the coercion at concrete identifiers. -/
theorem identifier_coercion_witness :
    (lookupOrder t0 "10000002" okStore7).queryVal = QueryVal.num 10000002
    ∧ (lookupOrder t0 "TR-10001" okStore7).queryVal = QueryVal.str "TR-10001" :=
  ⟨(identifier_coercion_amended t0 "10000002" okStore7).1 10000002 rfl,
   (identifier_coercion_amended t0 "TR-10001" okStore7).2 rfl⟩

/-- Record carrying the numeric identifier zero. -/
def zeroIdRecord : RawRecord := { order_id := some (.vNum 0) }

/-- C8 counterexample: a record that does carry an identifier — the number
0 — is still rejected with the missing-identifier integrity fault, because
the check tests truthiness rather than presence. -/
theorem order_id_zero_counterexample :
    zeroIdRecord.order_id ≠ none
    ∧ normalizeRecord t0 zeroIdRecord = .error "Invalid order data: missing order_id" := by
  refine ⟨by decide, rfl⟩

/-- C8 (corrected): the normalizer succeeds for every record whose
identifier is truthy, rendering numeric identifiers as their non-empty
string form; a record whose identifier is absent or falsy (empty string,
the number 0, or false) raises the integrity fault, which the dispatcher
surfaces as Internal Error (-32603), never as OrderNotFound. -/
theorem order_id_integrity_amended (now : String) (r : RawRecord) :
    (∀ v, r.order_id = some v → truthy v = true →
      ∃ resp, normalizeRecord now r = .ok resp
        ∧ resp.order_id = jsString v ∧ resp.order_id ≠ "")
    ∧ (truthyOpt r.order_id = false →
        normalizeRecord now r = .error "Invalid order data: missing order_id")
    ∧ (∀ (id : RpcId) (oid : String), 1 ≤ oid.length → truthyOpt r.order_id = false →
        handleToolsCall id (mkToolParams oid)
          (fun s => (lookupOrder now s (fun _ => .ok (some r))).outcome)
          = .failure id internalErrorCode "Internal server error while looking up order") := by
  have herr : truthyOpt r.order_id = false →
      normalizeRecord now r = .error "Invalid order data: missing order_id" := by
    intro h
    cases hoid : r.order_id with
    | none => unfold normalizeRecord; rw [hoid]
    | some v =>
        have hv : truthy v = false := by rw [hoid] at h; simpa [truthyOpt] using h
        unfold normalizeRecord
        rw [hoid]
        simp [hv]
  refine ⟨?_, herr, ?_⟩
  · intro v hv htv
    refine ⟨_, normalizeRecord_ok now r v hv htv, rfl, ?_⟩
    exact jsString_ne_empty v htv
  · intro id oid hlen h
    have houtcome : (lookupOrder now oid (fun _ => .ok (some r))).outcome
        = .raise "Invalid order data: missing order_id" := by
      have hnorm := herr h
      simp [lookupOrder, loopResult, attemptStep, lookupFinish, hnorm]
    rw [show (handleToolsCall id (mkToolParams oid)
        (fun s => (lookupOrder now s (fun _ => .ok (some r))).outcome))
      = (match (lookupOrder now oid (fun _ => .ok (some r))).outcome with
        | .notFound => .failure id orderNotFoundCode ("Order not found: " ++ oid)
        | .found order =>
            .success id (.toolCall (formatOrderForAgent order) (structuredOf order))
        | .raise _ =>
            .failure id internalErrorCode "Internal server error while looking up order")
      from by
        unfold handleToolsCall
        rw [parseToolCallParams_mk oid]
        simp [parseLookupArgs_mk oid hlen]]
    rw [houtcome]

/-- C8 witness: a truthy numeric identifier normalizes to its string form,
and the zero-identifier record is surfaced as Internal Error by the tool
dispatch. -/
theorem order_id_integrity_witness :
    (∃ resp, normalizeRecord t0 legacyOnlyRecord = .ok resp
      ∧ resp.order_id = "10000002" ∧ resp.order_id ≠ "")
    ∧ handleToolsCall (.num 1) (mkToolParams "0")
        (fun s => (lookupOrder t0 s (fun _ => .ok (some zeroIdRecord))).outcome)
        = .failure (.num 1) internalErrorCode "Internal server error while looking up order" := by
  constructor
  · obtain ⟨resp, h1, h2, h3⟩ :=
      (order_id_integrity_amended t0 legacyOnlyRecord).1 (.vStr "10000002") rfl (by decide)
    exact ⟨resp, h1, h2, h3⟩
  · exact (order_id_integrity_amended t0 zeroIdRecord).2.2 (.num 1) "0" (by decide) (by decide)

/-- Record with no timestamp column at all. -/
def onlyIdRecord : RawRecord := { order_id := some (.vStr "A1") }

/-- A second reference time, distinct from `t0`. -/
def tB : String := "2025-01-02T03:04:05.678Z"

/-- C9 counterexample: normalizing a record with no timestamp columns at
two different times yields different canonical output — the timestamp
fields default to the current time, so the output is not time-independent. -/
theorem normalization_time_dependent_counterexample :
    normalizeRecord t0 onlyIdRecord ≠ normalizeRecord tB onlyIdRecord := by
  intro h
  have h2 := congrArg
    (fun e => match e with | Except.ok o => o.last_update | Except.error m => m) h
  exact absurd h2 (by decide)

/-- C9 (corrected): normalization is deterministic given the current time,
and it is time-independent — normalizing twice at different times yields
identical output — whenever the timestamp sources resolve: `order_date`,
`created_at`, and the `last_update` fallback chain each hold a truthy,
parseable value. -/
theorem normalization_time_independence_amended (r : RawRecord) (t1 t2 : String)
    (h1 : tsIndep r.order_date = true) (h2 : tsIndep r.created_at = true)
    (h3 : tsIndep (jsOr (jsOr (jsOr r.last_update r.updated_at) r.order_date) r.created_at)
      = true) :
    normalizeRecord t1 r = normalizeRecord t2 r := by
  cases hoid : r.order_id with
  | none => unfold normalizeRecord; rw [hoid]
  | some oid =>
      cases hto : truthy oid with
      | false =>
          unfold normalizeRecord
          rw [hoid]
          simp [hto]
      | true =>
          rw [normalizeRecord_ok t1 r oid hoid hto, normalizeRecord_ok t2 r oid hoid hto]
          have htr := tsIndep_truthy _ h3
          have hc1 := jsOr_of_truthy
            (jsOr (jsOr (jsOr r.last_update r.updated_at) r.order_date) r.created_at)
            (some (.vStr t1)) htr
          have hc2 := jsOr_of_truthy
            (jsOr (jsOr (jsOr r.last_update r.updated_at) r.order_date) r.created_at)
            (some (.vStr t2)) htr
          rw [hc1, hc2, toTimestampStr_indep _ h1 t1 t2, toTimestampStr_indep _ h2 t1 t2,
            toTimestampStr_indep _ h3 t1 t2]

/-- Record whose timestamp sources all resolve. -/
def datedRecord : RawRecord :=
  { order_id := some (.vStr "A1"), order_date := some (.vStr "2024-01-01"),
    created_at := some (.vStr "2024-01-01"),
    last_update := some (.vStr "2024-01-02T03:04:05.678Z") }

/-- C9 witness: with all timestamp sources resolvable, normalization at two
different times agrees. -/
theorem normalization_time_independence_witness :
    normalizeRecord t0 datedRecord = normalizeRecord tB datedRecord :=
  normalization_time_independence_amended datedRecord t0 tB (by decide) (by decide) (by decide)

/-- State carried by a loop exit, whichever way the iteration ended. -/
def stOf : IterOut → LoopState
  | .next st => st
  | .broke st => st
  | .threw _ st => st

theorem lookupOrder_unfold (now oid : String) (store : Nat → AttemptResult) :
    lookupOrder now oid store =
      ⟨(match (loopResult store).1 with
        | .threw m _ => .raise m
        | .next st => lookupFinish now st
        | .broke st => lookupFinish now st),
       (match jsParseInt oid with | some n => .num n | none => .str oid),
       (loopResult store).2,
       (stOf (loopResult store).1).waits⟩ := by
  unfold lookupOrder
  rcases hl : loopResult store with ⟨out, used⟩
  cases out <;> simp [hl, stOf]

theorem loopResult_used_le (store : Nat → AttemptResult) : (loopResult store).2 ≤ 3 := by
  unfold loopResult
  (repeat' split) <;> simp

theorem attemptStep_waits (store : Nat → AttemptResult) (k : Nat) (st : LoopState) :
    (stOf (attemptStep store k st)).waits = st.waits
    ∨ (stOf (attemptStep store k st)).waits = st.waits ++ [1000 * k] := by
  unfold attemptStep
  cases store k with
  | ok d => left; rfl
  | qerr c m =>
      by_cases hc : (c == "PGRST116") = true
      · simp [hc, stOf]
      · simp only [hc]
        by_cases hr : (decide (k < 3) && transientMsg m) = true
        · simp [hr, stOf]
        · simp [hr, stOf]
  | exn nm m =>
      by_cases hr : (decide (k < 3) && exnTransient nm m) = true
      · simp [hr, stOf]
      · simp [hr, stOf]

theorem handleToolsCall_mk (id : RpcId) (oid : String) (hlen : 1 ≤ oid.length)
    (resolver : String → LookupOutcome) :
    handleToolsCall id (mkToolParams oid) resolver
      = match resolver oid with
        | .notFound => .failure id orderNotFoundCode ("Order not found: " ++ oid)
        | .found order =>
            .success id (.toolCall (formatOrderForAgent order) (structuredOf order))
        | .raise _ =>
            .failure id internalErrorCode "Internal server error while looking up order" := by
  unfold handleToolsCall
  rw [parseToolCallParams_mk oid]
  simp [parseLookupArgs_mk oid hlen]

/-- C1 (corrected): retry policy — at most 3 query attempts; a store-reported
error with a non-PGRST116 code and a transient message (containing
`fetch failed`, `ECONNREFUSED`, `timeout`, or `network`) on a non-terminal
attempt is retried after waiting 1000 ms × attempt number; two such failures
followed by a successful row return the normalized canonical order with
backoff waits [1000, 2000]; three such failures raise an error that the
dispatcher surfaces as InternalError; the PGRST116 not-found sentinel on any
attempt ends the loop immediately with a not-found result; and — the
correction — a thrown exception is retried only when its message contains
`fetch failed`, `ECONNREFUSED`, or `timeout` or its name is AbortError or
TimeoutError, so a thrown exception whose message merely contains `network`
is rethrown immediately without a retry. -/
theorem retry_policy_characterization (now oid : String) (store : Nat → AttemptResult) :
    (lookupOrder now oid store).attemptsUsed ≤ 3
    ∧ (∀ c1 m1 c2 m2 d, store 1 = .qerr c1 m1 → c1 ≠ "PGRST116" → transientMsg m1 = true →
        store 2 = .qerr c2 m2 → c2 ≠ "PGRST116" → transientMsg m2 = true →
        store 3 = .ok (some d) →
        (lookupOrder now oid store).waits = [1000, 2000]
        ∧ (lookupOrder now oid store).attemptsUsed = 3
        ∧ (∀ resp, normalizeRecord now d = .ok resp →
            (lookupOrder now oid store).outcome = .found resp))
    ∧ (∀ c1 m1 c2 m2 c3 m3, store 1 = .qerr c1 m1 → c1 ≠ "PGRST116" → transientMsg m1 = true →
        store 2 = .qerr c2 m2 → c2 ≠ "PGRST116" → transientMsg m2 = true →
        store 3 = .qerr c3 m3 → c3 ≠ "PGRST116" →
        (∃ e, (lookupOrder now oid store).outcome = .raise e)
        ∧ (lookupOrder now oid store).waits = [1000, 2000]
        ∧ (∀ (id : RpcId), 1 ≤ oid.length →
            handleToolsCall id (mkToolParams oid)
              (fun s2 => (lookupOrder now s2 store).outcome)
              = .failure id internalErrorCode "Internal server error while looking up order"))
    ∧ (∀ m, store 1 = .qerr "PGRST116" m →
        (lookupOrder now oid store).outcome = .notFound
        ∧ (lookupOrder now oid store).attemptsUsed = 1
        ∧ (lookupOrder now oid store).waits = [])
    ∧ (∀ c1 m1 m, store 1 = .qerr c1 m1 → c1 ≠ "PGRST116" → transientMsg m1 = true →
        store 2 = .qerr "PGRST116" m →
        (lookupOrder now oid store).outcome = .notFound
        ∧ (lookupOrder now oid store).attemptsUsed = 2
        ∧ (lookupOrder now oid store).waits = [1000])
    ∧ (∀ c1 m1 c2 m2 m, store 1 = .qerr c1 m1 → c1 ≠ "PGRST116" → transientMsg m1 = true →
        store 2 = .qerr c2 m2 → c2 ≠ "PGRST116" → transientMsg m2 = true →
        store 3 = .qerr "PGRST116" m →
        (lookupOrder now oid store).outcome = .notFound
        ∧ (lookupOrder now oid store).attemptsUsed = 3
        ∧ (lookupOrder now oid store).waits = [1000, 2000])
    ∧ (∀ nm m, store 1 = .exn nm m → exnTransient nm m = true →
        2 ≤ (lookupOrder now oid store).attemptsUsed
        ∧ (lookupOrder now oid store).waits.take 1 = [1000])
    ∧ (∀ nm m, store 1 = .exn nm m → exnTransient nm m = false →
        (lookupOrder now oid store).outcome = .raise m
        ∧ (lookupOrder now oid store).attemptsUsed = 1
        ∧ (lookupOrder now oid store).waits = []) := by
  have step1 : ∀ c1 m1, store 1 = .qerr c1 m1 → c1 ≠ "PGRST116" → transientMsg m1 = true →
      attemptStep store 1 ⟨none, none, none, []⟩
        = .next ⟨some m1, none, some (c1, m1), [1000]⟩ := by
    intro c1 m1 h1 hc1 ht1
    have hb1 : (c1 == "PGRST116") = false := by simp [hc1]
    unfold attemptStep
    rw [h1]
    simp [hb1, ht1]
  have step2 : ∀ c2 m2 (st : LoopState), store 2 = .qerr c2 m2 → c2 ≠ "PGRST116" →
      transientMsg m2 = true → st.waits = [1000] →
      attemptStep store 2 st = .next ⟨some m2, none, some (c2, m2), [1000, 2000]⟩ := by
    intro c2 m2 st h2 hc2 ht2 hw
    have hb2 : (c2 == "PGRST116") = false := by simp [hc2]
    unfold attemptStep
    rw [h2]
    simp [hb2, ht2, hw]
  have step3ok : ∀ d (st : LoopState), store 3 = .ok d →
      attemptStep store 3 st = .broke { st with data := d, error := none } := by
    intro d st h3
    unfold attemptStep
    rw [h3]
  have step3qerr : ∀ c3 m3 (st : LoopState), store 3 = .qerr c3 m3 → c3 ≠ "PGRST116" →
      attemptStep store 3 st = .broke { st with data := none, error := some (c3, m3) } := by
    intro c3 m3 st h3 hc3
    have hb3 : (c3 == "PGRST116") = false := by simp [hc3]
    unfold attemptStep
    rw [h3]
    simp [hb3]
  have steppg : ∀ k m (st : LoopState), store k = .qerr "PGRST116" m →
      attemptStep store k st = .broke { st with data := none, error := some ("PGRST116", m) } := by
    intro k m st hk
    unfold attemptStep
    rw [hk]
    simp
  refine ⟨?_, ?_, ?_, ?_, ?_, ?_, ?_, ?_⟩
  · rw [lookupOrder_unfold]
    exact loopResult_used_le store
  · intro c1 m1 c2 m2 d h1 hc1 ht1 h2 hc2 ht2 h3
    have l1 := step1 c1 m1 h1 hc1 ht1
    have l2 := step2 c2 m2 ⟨some m1, none, some (c1, m1), [1000]⟩ h2 hc2 ht2 rfl
    have l3 := step3ok (some d) ⟨some m2, none, some (c2, m2), [1000, 2000]⟩ h3
    have hloop : loopResult store
        = (.broke ⟨some m2, some d, none, [1000, 2000]⟩, 3) := by
      unfold loopResult
      simp only [l1, l2, l3]
    rw [lookupOrder_unfold]
    refine ⟨by simp [hloop, stOf], by simp [hloop], ?_⟩
    intro resp hresp
    simp [hloop, lookupFinish, hresp]
  · intro c1 m1 c2 m2 c3 m3 h1 hc1 ht1 h2 hc2 ht2 h3 hc3
    have l1 := step1 c1 m1 h1 hc1 ht1
    have l2 := step2 c2 m2 ⟨some m1, none, some (c1, m1), [1000]⟩ h2 hc2 ht2 rfl
    have l3 := step3qerr c3 m3 ⟨some m2, none, some (c2, m2), [1000, 2000]⟩ h3 hc3
    have hb3 : (c3 == "PGRST116") = false := by simp [hc3]
    have hloop : loopResult store
        = (.broke ⟨some m2, none, some (c3, m3), [1000, 2000]⟩, 3) := by
      unfold loopResult
      simp only [l1, l2, l3]
    have hE : ∃ e, (lookupOrder now oid store).outcome = .raise e := by
      cases hcond : (strContains m3 "fetch failed" || strContains m3 "ECONNREFUSED") with
      | true =>
          refine ⟨"Network connection failed: Unable to connect to Supabase database. Please verify SUPABASE_URL is correct and the database is accessible.", ?_⟩
          rw [lookupOrder_unfold]
          simp [hloop, lookupFinish, hb3, hcond]
      | false =>
          refine ⟨"Database query failed: " ++ m3, ?_⟩
          rw [lookupOrder_unfold]
          simp [hloop, lookupFinish, hb3, hcond]
    refine ⟨hE, by rw [lookupOrder_unfold]; simp [hloop, stOf], ?_⟩
    intro id hlen
    obtain ⟨e, he⟩ := hE
    rw [handleToolsCall_mk id oid hlen]
    show (match (lookupOrder now oid store).outcome with
      | .notFound => JsonRpcResponse.failure id orderNotFoundCode ("Order not found: " ++ oid)
      | .found order =>
          JsonRpcResponse.success id (.toolCall (formatOrderForAgent order) (structuredOf order))
      | .raise _ =>
          JsonRpcResponse.failure id internalErrorCode
            "Internal server error while looking up order") = _
    rw [he]
  · intro m h1
    have l1 := steppg 1 m ⟨none, none, none, []⟩ h1
    have hloop : loopResult store = (.broke ⟨none, none, some ("PGRST116", m), []⟩, 1) := by
      unfold loopResult
      simp only [l1]
    refine ⟨?_, ?_, ?_⟩ <;> rw [lookupOrder_unfold] <;> simp [hloop, lookupFinish, stOf]
  · intro c1 m1 m h1 hc1 ht1 h2
    have l1 := step1 c1 m1 h1 hc1 ht1
    have l2 := steppg 2 m ⟨some m1, none, some (c1, m1), [1000]⟩ h2
    have hloop : loopResult store
        = (.broke ⟨some m1, none, some ("PGRST116", m), [1000]⟩, 2) := by
      unfold loopResult
      simp only [l1, l2]
    refine ⟨?_, ?_, ?_⟩ <;> rw [lookupOrder_unfold] <;> simp [hloop, lookupFinish, stOf]
  · intro c1 m1 c2 m2 m h1 hc1 ht1 h2 hc2 ht2 h3
    have l1 := step1 c1 m1 h1 hc1 ht1
    have l2 := step2 c2 m2 ⟨some m1, none, some (c1, m1), [1000]⟩ h2 hc2 ht2 rfl
    have l3 := steppg 3 m ⟨some m2, none, some (c2, m2), [1000, 2000]⟩ h3
    have hloop : loopResult store
        = (.broke ⟨some m2, none, some ("PGRST116", m), [1000, 2000]⟩, 3) := by
      unfold loopResult
      simp only [l1, l2, l3]
    refine ⟨?_, ?_, ?_⟩ <;> rw [lookupOrder_unfold] <;> simp [hloop, lookupFinish, stOf]
  · intro nm m h1 het
    have l1 : attemptStep store 1 ⟨none, none, none, []⟩
        = .next ⟨some m, none, none, [1000]⟩ := by
      unfold attemptStep
      rw [h1]
      simp [het]
    rw [lookupOrder_unfold]
    unfold loopResult
    simp only [l1]
    cases h2 : attemptStep store 2 ⟨some m, none, none, [1000]⟩ with
    | next s2 =>
        simp only [h2]
        have hw2 := attemptStep_waits store 2 ⟨some m, none, none, [1000]⟩
        rw [h2] at hw2
        simp only [stOf] at hw2
        cases h3 : attemptStep store 3 s2 with
        | next s3 =>
            simp only [h3]
            have hw3 := attemptStep_waits store 3 s2
            rw [h3] at hw3
            simp only [stOf] at hw3
            refine ⟨by simp, ?_⟩
            simp only [stOf]
            rcases hw2 with hw2 | hw2 <;> rcases hw3 with hw3 | hw3 <;> simp [hw3, hw2]
        | broke s3 =>
            simp only [h3]
            have hw3 := attemptStep_waits store 3 s2
            rw [h3] at hw3
            simp only [stOf] at hw3
            refine ⟨by simp, ?_⟩
            simp only [stOf]
            rcases hw2 with hw2 | hw2 <;> rcases hw3 with hw3 | hw3 <;> simp [hw3, hw2]
        | threw m3 s3 =>
            simp only [h3]
            have hw3 := attemptStep_waits store 3 s2
            rw [h3] at hw3
            simp only [stOf] at hw3
            refine ⟨by simp, ?_⟩
            simp only [stOf]
            rcases hw2 with hw2 | hw2 <;> rcases hw3 with hw3 | hw3 <;> simp [hw3, hw2]
    | broke s2 =>
        simp only [h2]
        have hw2 := attemptStep_waits store 2 ⟨some m, none, none, [1000]⟩
        rw [h2] at hw2
        simp only [stOf] at hw2
        refine ⟨by simp, ?_⟩
        simp only [stOf]
        rcases hw2 with hw2 | hw2 <;> simp [hw2]
    | threw m2 s2 =>
        simp only [h2]
        have hw2 := attemptStep_waits store 2 ⟨some m, none, none, [1000]⟩
        rw [h2] at hw2
        simp only [stOf] at hw2
        refine ⟨by simp, ?_⟩
        simp only [stOf]
        rcases hw2 with hw2 | hw2 <;> simp [hw2]
  · intro nm m h1 het
    have l1 : attemptStep store 1 ⟨none, none, none, []⟩
        = .threw m ⟨none, none, none, []⟩ := by
      unfold attemptStep
      rw [h1]
      simp [het]
    have hloop : loopResult store = (.threw m ⟨none, none, none, []⟩, 1) := by
      unfold loopResult
      simp only [l1]
    refine ⟨?_, ?_, ?_⟩ <;> rw [lookupOrder_unfold] <;> simp [hloop, stOf]

/-- Store that fails with a transient timeout twice, then delivers a row. -/
def flakyStore : Nat → AttemptResult := fun a =>
  if a ≤ 2 then .qerr "500" "timeout" else .ok (some { order_id := some (.vStr "7") })

/-- C1 witness: two transient failures then success — the resolver backs off
1 s then 2 s, uses all three attempts, and returns the canonical order. -/
theorem retry_policy_witness :
    (lookupOrder t0 "7" flakyStore).waits = [1000, 2000]
    ∧ (lookupOrder t0 "7" flakyStore).attemptsUsed = 3
    ∧ ∃ resp, (lookupOrder t0 "7" flakyStore).outcome = .found resp := by
  have h := (retry_policy_characterization t0 "7" flakyStore).2.1
    "500" "timeout" "500" "timeout" { order_id := some (.vStr "7") }
    rfl (by decide) (by decide) rfl (by decide) (by decide) rfl
  exact ⟨h.1, h.2.1, ⟨_, h.2.2 _
    (normalizeRecord_ok t0 { order_id := some (.vStr "7") } (.vStr "7") rfl (by decide))⟩⟩

/-- Store whose every attempt throws an exception whose message mentions
only `network`. -/
def netExnStore : Nat → AttemptResult := fun _ => .exn "Error" "network unreachable"

/-- C1 counterexample: a thrown exception whose message contains `network`
is classified transient by the claim's unified list (`transientMsg` is the
classifier the claim describes), yet the resolver rethrows it on the very
first attempt — no retry, no backoff wait. -/
theorem retry_network_exn_not_retried :
    transientMsg "network unreachable" = true
    ∧ (lookupOrder t0 "TR-1" netExnStore).outcome = .raise "network unreachable"
    ∧ (lookupOrder t0 "TR-1" netExnStore).attemptsUsed = 1
    ∧ (lookupOrder t0 "TR-1" netExnStore).waits = [] := by
  refine ⟨by decide, rfl, rfl, rfl⟩

theorem handleToolsCall_codeValid (id : RpcId) (params : Option JVal)
    (resolver : String → LookupOutcome) :
    respCodeValid (handleToolsCall id params resolver) = true := by
  unfold handleToolsCall
  (repeat' split) <;> rfl

/-- C7 (confirmed): the dispatcher is total — for every body and every
resolver behaviour (including an arbitrary raised error) it returns an
envelope that is either a success or a failure carrying one of the five
documented error codes; an unknown method on a valid envelope yields
MethodNotFound (-32601) with the request id, and a resolver that raises is
converted to InternalError (-32603) with the request id. -/
theorem dispatcher_totality (body : JVal) (resolver : String → LookupOutcome) :
    respCodeValid (handleMcpRequest body resolver) = true
    ∧ (∀ fs m, body = .jobj fs → validateJsonRpcRequest body = true →
        jlookup fs "method" = some (.jstr m) →
        m ≠ "initialize" → m ≠ "ping" → m ≠ "tools/list" → m ≠ "tools/call" →
        handleMcpRequest body resolver
          = .failure (extractId fs) methodNotFoundCode ("Method not found: " ++ m))
    ∧ (∀ fs args oid e, body = .jobj fs → validateJsonRpcRequest body = true →
        jlookup fs "method" = some (.jstr "tools/call") →
        parseToolCallParams (jlookup fs "params") = some ("lookup_order", args) →
        parseLookupArgs args = some oid →
        resolver oid = .raise e →
        handleMcpRequest body resolver
          = .failure (extractId fs) internalErrorCode
              "Internal server error while looking up order") := by
  refine ⟨?_, ?_, ?_⟩
  · cases body with
    | jobj fs =>
        unfold handleMcpRequest
        by_cases hv : validateJsonRpcRequest (.jobj fs) = true
        · simp only [hv, if_true]
          cases hm : jlookup fs "method" with
          | none => rfl
          | some v =>
              cases v with
              | jstr m =>
                  by_cases h1 : m = "initialize"
                  · simp [h1, respCodeValid]
                  · have hb1 : (m == "initialize") = false := by simp [h1]
                    by_cases h2 : m = "ping"
                    · simp [hb1, h2, respCodeValid]
                    · have hb2 : (m == "ping") = false := by simp [h2]
                      by_cases h3 : m = "tools/list"
                      · simp [hb1, hb2, h3, respCodeValid]
                      · have hb3 : (m == "tools/list") = false := by simp [h3]
                        by_cases h4 : m = "tools/call"
                        · simp [hb1, hb2, hb3, h4, handleToolsCall_codeValid]
                        · have hb4 : (m == "tools/call") = false := by simp [h4]
                          simp [hb1, hb2, hb3, hb4, respCodeValid]
              | jnull => rfl
              | jbool b => rfl
              | jnum n => rfl
              | jarr es => rfl
              | jobj gs => rfl
        · simp only [hv]
          rfl
    | jnull => rfl
    | jbool b => rfl
    | jnum n => rfl
    | jstr s => rfl
    | jarr es => rfl
  · intro fs m hbody hv hm hn1 hn2 hn3 hn4
    subst hbody
    have hb1 : (m == "initialize") = false := by simp [hn1]
    have hb2 : (m == "ping") = false := by simp [hn2]
    have hb3 : (m == "tools/list") = false := by simp [hn3]
    have hb4 : (m == "tools/call") = false := by simp [hn4]
    unfold handleMcpRequest
    simp [hv, hm, hb1, hb2, hb3, hb4]
  · intro fs args oid e hbody hv hm hparse hargs hres
    subst hbody
    unfold handleMcpRequest
    simp only [hv, if_true, hm]
    unfold handleToolsCall
    simp [hparse, hargs, hres]

/-- Valid envelope invoking an unknown method. -/
def bodyNope : JVal :=
  .jobj [("jsonrpc", .jstr "2.0"), ("id", .jstr "1"), ("method", .jstr "nope")]

/-- C7 witness: an unknown method on a valid envelope yields MethodNotFound
with the request id, and the envelope carries a documented code. -/
theorem dispatcher_totality_witness :
    handleMcpRequest bodyNope nullResolver
      = .failure (.str "1") methodNotFoundCode "Method not found: nope"
    ∧ respCodeValid (handleMcpRequest bodyNope nullResolver) = true := by
  have h := dispatcher_totality bodyNope nullResolver
  exact ⟨h.2.1 _ "nope" rfl rfl rfl (by decide) (by decide) (by decide) (by decide), h.1⟩
